import Mathlib

/-!
Shallow embedding of the ownership-scoped CRUD backend
(apps/products, apps/posts, apps/users) of the repository.

Money and rate columns (DecimalField) are embedded as exact rationals ℚ;
identities and primary keys as Nat; timestamps as Nat.  Fallible
operations return error lists or Except values.  Each definition is
translated from the Python source file named in its doc comment.
-/

namespace Backend

/-- Scope of a validation error, mirroring DRF error dictionaries:
a field-scoped error is keyed by the offending field name, a
record-scoped error (raised by an object-level validate) is keyed by
no field (non_field_errors). -/
inductive ErrScope
  | field (name : String)
  | record
deriving DecidableEq, Repr

/-- Row of apps/products/models.py, class Product.  updated_at is
auto-maintained and irrelevant to the claims, so it is omitted;
id / created_by / created_at are the columns the frame claims are about. -/
structure Product where
  id : Nat
  name : String
  description : String
  price : ℚ
  tax : ℚ
  cost : ℚ
  stock : Int
  status : Bool
  created_by : Nat
  created_at : Nat
deriving DecidableEq, Repr

/-- An inbound Product payload as the serializer sees it: every writable
field may be absent (partial update), and a client may also supply a
created_by key, which the serializer ignores because Meta.read_only_fields
lists it. -/
structure ProductPayload where
  name : Option String := none
  description : Option String := none
  price : Option ℚ := none
  tax : Option ℚ := none
  cost : Option ℚ := none
  stock : Option Int := none
  status : Option Bool := none
  created_by : Option Nat := none
deriving DecidableEq, Repr

/-- Meta.fields of ProductSerializer (apps/products/serializers.py). -/
def ProductSerializer.fields : List String :=
  ["id", "name", "description", "price", "stock", "tax", "cost",
   "calculate_total_price", "status", "created_by", "created_at", "updated_at"]

/-- Meta.read_only_fields of ProductSerializer. -/
def ProductSerializer.read_only_fields : List String :=
  ["id", "created_by", "created_at", "updated_at"]

/-- validate_price of ProductSerializer: price must be strictly positive. -/
def validate_price (v : ℚ) : List ErrScope :=
  if v ≤ 0 then [ErrScope.field "price"] else []

/-- validate_cost of ProductSerializer: cost must be strictly positive. -/
def validate_cost (v : ℚ) : List ErrScope :=
  if v ≤ 0 then [ErrScope.field "cost"] else []

/-- validate_stock of ProductSerializer: stock must be non-negative. -/
def validate_stock (v : Int) : List ErrScope :=
  if v < 0 then [ErrScope.field "stock"] else []

/-- Python str.strip: drop leading and trailing whitespace. -/
def strip (s : String) : String :=
  String.mk
    (((s.toList.dropWhile Char.isWhitespace).reverse.dropWhile
        Char.isWhitespace).reverse)

/-- Python str.lower on the characters of a string. -/
def lowerStr (s : String) : String :=
  String.mk (s.toList.map Char.toLower)

/-- validate_name of ProductSerializer: name must be non-blank after strip. -/
def validate_name (v : String) : List ErrScope :=
  if strip v = "" then [ErrScope.field "name"] else []

/-- validate_tax of ProductSerializer: tax must lie in [0.01, 1.00]. -/
def validate_tax (v : ℚ) : List ErrScope :=
  if v < 1/100 then [ErrScope.field "tax"]
  else if v > 1 then [ErrScope.field "tax"]
  else []

/-- Field-level pass of serializer validation for one optional field:
on the create path (no instance) a required field that is absent yields
a field-scoped required error; an absent optional field is skipped;
a present field runs its validator. -/
def checkField (required : Bool) (fieldName : String)
    (validator : α → List ErrScope) (v : Option α) : List ErrScope :=
  match v with
  | none => if required then [ErrScope.field fieldName] else []
  | some x => validator x

/-- All field-scoped errors of a Product payload, as DRF to_internal_value
collects them.  name, price and cost are required on create (they have no
model default); description, tax, stock and status are optional. -/
def fieldErrors (create : Bool) (d : ProductPayload) : List ErrScope :=
  checkField create "name" validate_name d.name
  ++ checkField create "price" validate_price d.price
  ++ checkField create "cost" validate_cost d.cost
  ++ checkField false "stock" validate_stock d.stock
  ++ checkField false "tax" validate_tax d.tax

/-- The cost value the object-level validate compares (serializers.py,
ProductSerializer.validate): on update the payload value if present, else
the stored instance value; on create the payload value. -/
def effective_cost (inst : Option Product) (d : ProductPayload) : Option ℚ :=
  match inst with
  | some i => some (d.cost.getD i.cost)
  | none => d.cost

/-- The price value the object-level validate compares (same merge rule). -/
def effective_price (inst : Option Product) (d : ProductPayload) : Option ℚ :=
  match inst with
  | some i => some (d.price.getD i.price)
  | none => d.price

/-- Object-level validate of ProductSerializer: when both effective values
exist and cost exceeds price, reject with a record-scoped error. -/
def object_validate (inst : Option Product) (d : ProductPayload) : List ErrScope :=
  match effective_cost inst d, effective_price inst d with
  | some cv, some pv => if pv < cv then [ErrScope.record] else []
  | _, _ => []

/-- Full serializer validation pipeline (is_valid): field errors are
collected first and raised if any, the object-level validate runs only
when all field checks pass.  inst = none is the create path. -/
def validationErrors (inst : Option Product) (d : ProductPayload) : List ErrScope :=
  let fe := fieldErrors inst.isNone d
  if fe = [] then object_validate inst d else fe

/-- calculate_total_price of apps/products/models.py: price including tax. -/
def Product.calculate_total_price (p : Product) : ℚ :=
  p.price * (1 + p.tax)

/-- ModelSerializer.update as configured by ProductSerializer.Meta: each
writable field is overwritten by the payload value when present; the
read-only fields id, created_by, created_at (and updated_at) are never
taken from the payload. -/
def ProductSerializer.update (inst : Product) (d : ProductPayload) : Product :=
  { inst with
    name := d.name.getD inst.name
    description := d.description.getD inst.description
    price := d.price.getD inst.price
    tax := d.tax.getD inst.tax
    cost := d.cost.getD inst.cost
    stock := d.stock.getD inst.stock
    status := d.status.getD inst.status }

/-- Row of the Post model.  apps/posts/models.py is not part of src;
the fields are taken from PostSerializer / PostAdmin (title, content,
author, is_published, timestamps), which list every column the claims
touch. -/
structure Post where
  id : Nat
  title : String
  content : String
  author : Nat
  is_published : Bool
  created_at : Nat
deriving DecidableEq, Repr

/-- Inbound Post payload.  Note that PostSerializer.Meta lists author among
fields and not among read_only_fields, so author is writable. -/
structure PostPayload where
  title : Option String := none
  content : Option String := none
  author : Option Nat := none
  is_published : Option Bool := none
deriving DecidableEq, Repr

/-- ModelSerializer.update as configured by PostSerializer.Meta. -/
def PostSerializer.update (inst : Post) (d : PostPayload) : Post :=
  { inst with
    title := d.title.getD inst.title
    content := d.content.getD inst.content
    author := d.author.getD inst.author
    is_published := d.is_published.getD inst.is_published }

/-- The persisted rows both viewsets operate on. -/
structure Store where
  products : List Product
  posts : List Post
deriving DecidableEq, Repr

/-- Outcome of a request, abstracting the HTTP status classes the views
produce: ok 200, created 201, badRequest 400 (validation), unauthorized
401 (not authenticated), forbidden 403 (authenticated but denied by an
object permission), notFound 404 (no row in the resolved queryset). -/
inductive Outcome
  | ok
  | created
  | badRequest
  | unauthorized
  | forbidden
  | notFound
deriving DecidableEq, Repr

/-- Case-insensitive substring test embedding the ORM icontains lookup. -/
def charsPrefix : List Char → List Char → Bool
  | [], _ => true
  | _ :: _, [] => false
  | a :: as, b :: bs => a = b && charsPrefix as bs

/-- Does needle occur inside hay (as lists of characters)? -/
def charsContain (needle : List Char) : List Char → Bool
  | [] => needle.isEmpty
  | b :: bs => charsPrefix needle (b :: bs) || charsContain needle bs

/-- name icontains search: case-insensitive containment. -/
def icontains (hay needle : String) : Bool :=
  charsContain (lowerStr needle).toList (lowerStr hay).toList

/-- ProductViewSet.get_queryset: unauthenticated requesters get the empty
queryset; an authenticated requester gets only their own products,
optionally narrowed by the search query parameter (a falsy/empty search
value applies no filter). -/
def product_get_queryset (st : Store) (requester : Option Nat)
    (search : Option String) : List Product :=
  match requester with
  | none => []
  | some u =>
    let qs := st.products.filter (fun p => p.created_by = u)
    match search with
    | some s => if s = "" then qs else qs.filter (fun p => icontains p.name s)
    | none => qs

/-- The list action of ProductViewSet before pagination. -/
def productList (st : Store) (requester : Option Nat)
    (search : Option String) : List Product :=
  product_get_queryset st requester search

/-- The low_cost action of ProductViewSet: it filters self.queryset,
which is Product.objects.all(), NOT the owner-scoped get_queryset, so the
requesting identity plays no role.  The default threshold is 100. -/
def productLowCost (st : Store) (requester : Option Nat) (threshold : ℚ) :
    List Product :=
  st.products.filter (fun p => p.cost < threshold)

/-- update / partial_update of ProductViewSet.  permission_classes is only
IsAuthenticatedOrReadOnly (the IsAuthorOrReadOnly class defined in
apps/products/views.py is never wired in), so: anonymous writer → 401;
then get_object looks the pk up inside the owner-scoped get_queryset, so a
product owned by someone else is simply absent → 404; an owned product is
validated against the merge of payload and instance and saved. -/
def productUpdate (st : Store) (requester : Option Nat) (pid : Nat)
    (d : ProductPayload) : Store × Outcome :=
  match requester with
  | none => (st, Outcome.unauthorized)
  | some u =>
    match (product_get_queryset st (some u) none).find? (fun p => p.id = pid) with
    | none => (st, Outcome.notFound)
    | some inst =>
      if validationErrors (some inst) d = [] then
        let saved := st.products.map
          (fun p => if p.id = pid then ProductSerializer.update inst d else p)
        ({ st with products := saved }, Outcome.ok)
      else (st, Outcome.badRequest)

/-- destroy of ProductViewSet: same permission and object-resolution path
as update; on success the row is deleted. -/
def productDestroy (st : Store) (requester : Option Nat) (pid : Nat) :
    Store × Outcome :=
  match requester with
  | none => (st, Outcome.unauthorized)
  | some u =>
    match (product_get_queryset st (some u) none).find? (fun p => p.id = pid) with
    | none => (st, Outcome.notFound)
    | some _ =>
      ({ st with products := st.products.filter (fun p => ¬ p.id = pid) },
       Outcome.ok)

/-- The list action of PostViewSet: queryset is Post.objects.all() and
get_queryset is not overridden, so every post is returned whatever the
requesting identity is (anonymous included, since GET is a safe method
under IsAuthenticatedOrReadOnly). -/
def postList (st : Store) (requester : Option Nat) : List Post :=
  st.posts

/-- The my_posts action of PostViewSet: posts filtered by author. -/
def myPosts (st : Store) (u : Nat) : List Post :=
  st.posts.filter (fun q => q.author = u)

/-- The published action of PostViewSet: posts with is_published true,
for any requester. -/
def publishedPosts (st : Store) : List Post :=
  st.posts.filter (fun q => q.is_published = true)

/-- update / partial_update of PostViewSet.  get_permissions installs
IsAuthenticated and IsAuthorOrReadOnly for this action: anonymous → 401;
the object is resolved in the unscoped queryset (404 when absent); then
IsAuthorOrReadOnly.has_object_permission denies a non-author writer → 403;
otherwise the payload is applied. -/
def postUpdate (st : Store) (requester : Option Nat) (pid : Nat)
    (d : PostPayload) : Store × Outcome :=
  match requester with
  | none => (st, Outcome.unauthorized)
  | some u =>
    match st.posts.find? (fun q => q.id = pid) with
    | none => (st, Outcome.notFound)
    | some inst =>
      if inst.author = u then
        let saved := st.posts.map
          (fun q => if q.id = pid then PostSerializer.update inst d else q)
        ({ st with posts := saved }, Outcome.ok)
      else (st, Outcome.forbidden)

/-- destroy of PostViewSet: same permission path as update. -/
def postDestroy (st : Store) (requester : Option Nat) (pid : Nat) :
    Store × Outcome :=
  match requester with
  | none => (st, Outcome.unauthorized)
  | some u =>
    match st.posts.find? (fun q => q.id = pid) with
    | none => (st, Outcome.notFound)
    | some inst =>
      if inst.author = u then
        ({ st with posts := st.posts.filter (fun q => ¬ q.id = pid) }, Outcome.ok)
      else (st, Outcome.forbidden)

/-- ProductPagination.page_size (apps/products/views.py). -/
def ProductPagination.page_size : Nat := 10

/-- ProductPagination.max_page_size. -/
def ProductPagination.max_page_size : Nat := 100

/-- PageNumberPagination.get_page_size with ProductPagination settings:
a positive pagesize query value is honoured up to max_page_size; an
absent, zero or unparsable value falls back to the default page_size. -/
def get_page_size (query : Option Nat) : Nat :=
  match query with
  | some n =>
    if 0 < n then min n ProductPagination.max_page_size
    else ProductPagination.page_size
  | none => ProductPagination.page_size

/-- One page of results, as the paginator slices the queryset. -/
def paginate (l : List α) (pageSize page : Nat) : List α :=
  (l.drop ((page - 1) * pageSize)).take pageSize

/-- The paginated Product list response body. -/
def productListPage (st : Store) (requester : Option Nat)
    (search : Option String) (query : Option Nat) (page : Nat) : List Product :=
  paginate (productList st requester search) (get_page_size query) page

/-- Identity row.  Modelled from the spec: the custom User model
(apps/users/models.py) is not part of src; the spec gives email (unique,
case-normalized), name fields, phone, stored password hash, activation
flag.  The stored hash is abstracted as the password value itself and
hash comparison as equality. -/
structure User where
  id : Nat
  email : String
  password : String
  first_name : String
  last_name : String
  phone_number : String
  is_active : Bool
deriving DecidableEq, Repr

/-- Modelled from the spec: email case normalization performed by the
user manager (apps/users/models.py not in src; its tests assert the
stored email equals the lowercased input). -/
def normalize_email (e : String) : String := lowerStr e

/-- Modelled from the spec: User.check_password, the verification of a
candidate password against the stored hash (User model not in src);
with the hash abstracted away it is equality with the stored value. -/
def check_password (stored candidate : String) : Bool :=
  stored = candidate

/-- Registration payload of UserRegistrationSerializer. -/
structure RegPayload where
  email : String
  first_name : String
  last_name : String
  phone_number : String
  password : String
  password2 : String
deriving DecidableEq, Repr

/-- Serializer validation for registration: field-level checks first
(the unique validator on email, modelled from the spec since the User
model is not in src), then the object-level validate of
UserRegistrationSerializer, which rejects mismatched password fields
with an error keyed to the password field. -/
def registration_errors (store : List User) (p : RegPayload) : List ErrScope :=
  let fe :=
    if store.any (fun u => u.email = normalize_email p.email) then
      [ErrScope.field "email"]
    else []
  if fe = [] then
    if p.password = p.password2 then [] else [ErrScope.field "password"]
  else fe

/-- Modelled from the spec: User.objects.create_user (apps/users/models.py
not in src) creates one identity with the case-normalized email. -/
def create_user (store : List User) (p : RegPayload) : List User × User :=
  let u : User :=
    { id := store.length
      email := normalize_email p.email
      password := p.password
      first_name := p.first_name
      last_name := p.last_name
      phone_number := p.phone_number
      is_active := true }
  (store ++ [u], u)

/-- Modelled from the spec: the external token issuer
(RefreshToken.for_user) hands back an access+refresh bearer pair for the
identity. -/
def tokens_for (u : User) : String × String :=
  ("access-" ++ toString u.id, "refresh-" ++ toString u.id)

/-- Result of a registration request. -/
structure RegResult where
  newStore : List User
  status : Nat
  tokens : Option (String × String)
  errors : List ErrScope
deriving DecidableEq, Repr

/-- UserRegistrationView.create (apps/users/views.py): validate, save a
new user, answer 201 with the token pair; on validation failure answer
400 and touch nothing. -/
def UserRegistrationView.create (store : List User) (p : RegPayload) : RegResult :=
  let errs := registration_errors store p
  if errs = [] then
    let res := create_user store p
    { newStore := res.1, status := 201, tokens := some (tokens_for res.2),
      errors := [] }
  else
    { newStore := store, status := 400, tokens := none, errors := errs }

/-- Modelled from the spec: the external authentication interface
(django authenticate with the default backend): resolve the identity by
email, verify the password against the stored hash, reject inactive
identities; any failure yields no identity. -/
def authenticate (store : List User) (email pw : String) : Option User :=
  match store.find? (fun u => u.email = email) with
  | none => none
  | some u =>
    if check_password u.password pw ∧ u.is_active = true then some u else none

/-- Outcome of UserLoginSerializer.validate. -/
inductive LoginOutcome
  | ok (u : User)
  | rejected (msg : String)
deriving DecidableEq, Repr

/-- UserLoginSerializer.validate (apps/users/serializers.py): with both
fields supplied, a failed authenticate yields one fixed generic message
naming no field; the inactive branch is unreachable with the default
backend but is kept as written. -/
def UserLoginSerializer.validate (store : List User) (email pw : String) :
    LoginOutcome :=
  if email ≠ "" ∧ pw ≠ "" then
    match authenticate store email pw with
    | none => LoginOutcome.rejected "Unable to log in with provided credentials."
    | some u =>
      if u.is_active = true then LoginOutcome.ok u
      else LoginOutcome.rejected "User account is disabled."
  else LoginOutcome.rejected "Must include email and password."

/-- ChangePasswordSerializer validation: validate_old_password is a
field-level check (field errors are collected and raised first), the
object-level validate then rejects mismatched new passwords with an
error keyed to new_password. -/
def change_password_errors (u : User) (old n1 n2 : String) : List ErrScope :=
  let fe :=
    if check_password u.password old then [] else [ErrScope.field "old_password"]
  if fe = [] then
    if n1 = n2 then [] else [ErrScope.field "new_password"]
  else fe

/-- ChangePasswordView.post (apps/users/views.py): on valid input the
requesting identity gets the new password stored (set_password + save,
the hash abstracted as the value) and 200; otherwise 400 and the store
is untouched. -/
def ChangePasswordView.post (store : List User) (u : User)
    (old n1 n2 : String) : List User × Nat :=
  if change_password_errors u old n1 n2 = [] then
    (store.map (fun v => if v.id = u.id then { v with password := n1 } else v), 200)
  else (store, 400)

/-! Concrete fixtures used to instantiate and to refute claims. -/

/-- The worked example of the spec: price 100, cost 50, tax 0.06. -/
def exampleProduct : Product :=
  { id := 1, name := "widget", description := "", price := 100, tax := 6/100,
    cost := 50, stock := 0, status := true, created_by := 1, created_at := 0 }

/-- A product owned by identity 1 (integer columns only, so that
closed statements evaluate by decide). -/
def prodC1 : Product :=
  { id := 1, name := "p", description := "", price := 10, tax := 1,
    cost := 5, stock := 0, status := true, created_by := 1, created_at := 0 }

/-- A post authored by identity 1. -/
def postC1 : Post :=
  { id := 1, title := "t", content := "c", author := 1, is_published := true,
    created_at := 0 }

/-- Store holding one product and one post, both owned by identity 1. -/
def stC1 : Store := { products := [prodC1], posts := [postC1] }

/-- Cheap product number i, owned by identity 1. -/
def prodN (i : Nat) : Product :=
  { id := i, name := "p", description := "", price := 60, tax := 1,
    cost := 50, stock := 0, status := true, created_by := 1, created_at := 0 }

/-- Store with eleven cheap products, one more than the default page size. -/
def stC6 : Store := { products := (List.range 11).map prodN, posts := [] }

/-- Create payload of the spec example that must be rejected:
price 100, cost 150. -/
def mismatchPayload : ProductPayload :=
  { name := some "w", price := some 100, cost := some 150 }

/-- A fully valid create payload (no tax key, so the default applies). -/
def validPayload : ProductPayload :=
  { name := some "Widget", description := some "d", price := some 100,
    cost := some 50, stock := some 5, status := some true }

/-- A payload whose tax exceeds the 1.00 bound. -/
def badTaxPayload : ProductPayload := { tax := some 2 }

/-- A stored identity. -/
def userA : User :=
  { id := 1, email := "a@x.com", password := "pw", first_name := "A",
    last_name := "B", phone_number := "", is_active := true }

/-- Store of identities holding only userA. -/
def storeU : List User := [userA]

/-- A well-formed registration payload with matching password fields. -/
def regOk : RegPayload :=
  { email := "new@x.com", first_name := "N", last_name := "U",
    phone_number := "", password := "s3cret", password2 := "s3cret" }

/-- A registration payload with mismatched password fields. -/
def regBad : RegPayload :=
  { email := "new@x.com", first_name := "N", last_name := "U",
    phone_number := "", password := "s3cret", password2 := "other" }

/-! Helper lemmas about the validation pipeline, shared by the claims. -/

theorem validationErrors_of_field_ne (inst : Option Product) (d : ProductPayload)
    (h : fieldErrors inst.isNone d ≠ []) :
    validationErrors inst d = fieldErrors inst.isNone d := by
  simp [validationErrors, h]

theorem fieldErrors_nil_of_valid (inst : Option Product) (d : ProductPayload)
    (h : validationErrors inst d = []) : fieldErrors inst.isNone d = [] := by
  by_cases hfe : fieldErrors inst.isNone d = []
  · exact hfe
  · rw [validationErrors_of_field_ne inst d hfe] at h
    exact absurd h hfe

theorem mem_validationErrors_of_mem_field (inst : Option Product)
    (d : ProductPayload) (e : ErrScope)
    (h : e ∈ fieldErrors inst.isNone d) : e ∈ validationErrors inst d := by
  have hne : fieldErrors inst.isNone d ≠ [] := by
    intro h0
    rw [h0] at h
    exact (List.not_mem_nil e) h
  rw [validationErrors_of_field_ne inst d hne]
  exact h

/-- C9: the computed total price of a Product equals price × (1 + tax) in
exact rational arithmetic, the field is part of the serialized
representation, and on the worked example of the spec (price 100,
tax 0.06) it is exactly 106. -/
theorem c9_calculate_total_price :
    (∀ p : Product, p.calculate_total_price = p.price * (1 + p.tax))
    ∧ exampleProduct.calculate_total_price = 106
    ∧ "calculate_total_price" ∈ ProductSerializer.fields := by
  refine ⟨fun p => rfl, ?_, by decide⟩
  norm_num [exampleProduct, Product.calculate_total_price]

/-- C10: a Product update leaves id, created_by and created_at exactly as
stored, whatever the client payload supplies (a created_by key included),
so ownership cannot be reassigned through the update interface; the three
columns are indeed declared read-only in the serializer Meta. -/
theorem c10_update_frame (inst : Product) (d : ProductPayload) :
    (ProductSerializer.update inst d).id = inst.id
    ∧ (ProductSerializer.update inst d).created_by = inst.created_by
    ∧ (ProductSerializer.update inst d).created_at = inst.created_at
    ∧ "created_by" ∈ ProductSerializer.read_only_fields :=
  ⟨rfl, rfl, rfl, by decide⟩

/-- C3: whenever the effective cost (the payload value if present, else
the stored value on an update) exceeds the effective price, validation
rejects the payload on both the create and the update path, and when no
field check failed the rejection is exactly the record-scoped error;
moreover the effective values really are the merged view: on a partial
update an absent cost or price falls back to the stored instance value. -/
theorem c3_cost_exceeds_price (inst : Option Product) (d : ProductPayload)
    (cv pv : ℚ) (hc : effective_cost inst d = some cv)
    (hp : effective_price inst d = some pv) (hlt : pv < cv) :
    validationErrors inst d ≠ []
    ∧ (fieldErrors inst.isNone d = [] →
        validationErrors inst d = [ErrScope.record])
    ∧ (∀ i : Product, d.cost = none → effective_cost (some i) d = some i.cost)
    ∧ (∀ i : Product, d.price = none →
        effective_price (some i) d = some i.price) := by
  have hov : object_validate inst d = [ErrScope.record] := by
    simp [object_validate, hc, hp, hlt]
  refine ⟨?_, ?_, ?_, ?_⟩
  · by_cases hfe : fieldErrors inst.isNone d = []
    · simp [validationErrors, hfe, hov]
    · rw [validationErrors_of_field_ne inst d hfe]
      exact hfe
  · intro hfe
    simp [validationErrors, hfe, hov]
  · intro i hnone
    simp [effective_cost, hnone]
  · intro i hnone
    simp [effective_price, hnone]

/-- Witness for C3 at the spec example payload price 100, cost 150 on the
create path: the outcome is exactly the record-scoped rejection. -/
theorem c3_witness :
    validationErrors none mismatchPayload = [ErrScope.record] :=
  (c3_cost_exceeds_price none mismatchPayload 150 100 rfl rfl
    (by decide)).2.1 (by decide)

/-- C7: a Product payload that validation accepts satisfies every field
invariant (price > 0, cost > 0, stock ≥ 0, tax within [0.01, 1.00], name
non-blank after strip; on the create path name, price and cost must be
present), and a payload violating one of them is rejected with an error
scoped to the offending field. -/
theorem c7_field_invariants (inst : Option Product) (d : ProductPayload) :
    (validationErrors inst d = [] →
      (∀ x, d.price = some x → 0 < x)
      ∧ (∀ x, d.cost = some x → 0 < x)
      ∧ (∀ s, d.stock = some s → 0 ≤ s)
      ∧ (∀ t, d.tax = some t → 1/100 ≤ t ∧ t ≤ 1)
      ∧ (∀ n, d.name = some n → strip n ≠ "")
      ∧ (inst = none → d.name.isSome ∧ d.price.isSome ∧ d.cost.isSome))
    ∧ (∀ x, d.price = some x → x ≤ 0 →
        ErrScope.field "price" ∈ validationErrors inst d)
    ∧ (∀ x, d.cost = some x → x ≤ 0 →
        ErrScope.field "cost" ∈ validationErrors inst d)
    ∧ (∀ s, d.stock = some s → s < 0 →
        ErrScope.field "stock" ∈ validationErrors inst d)
    ∧ (∀ t, d.tax = some t → (t < 1/100 ∨ 1 < t) →
        ErrScope.field "tax" ∈ validationErrors inst d)
    ∧ (∀ n, d.name = some n → strip n = "" →
        ErrScope.field "name" ∈ validationErrors inst d) := by
  refine ⟨?_, ?_, ?_, ?_, ?_, ?_⟩
  · intro h
    have hfe := fieldErrors_nil_of_valid inst d h
    rw [fieldErrors] at hfe
    simp only [List.append_eq_nil, and_assoc] at hfe
    obtain ⟨hname, hprice, hcost, hstock, htax⟩ := hfe
    refine ⟨?_, ?_, ?_, ?_, ?_, ?_⟩
    · intro x hx
      rw [hx] at hprice
      simp [checkField, validate_price, not_le] at hprice
      exact hprice
    · intro x hx
      rw [hx] at hcost
      simp [checkField, validate_cost, not_le] at hcost
      exact hcost
    · intro s hs
      rw [hs] at hstock
      simp [checkField, validate_stock, not_lt] at hstock
      exact hstock
    · intro t ht
      rw [ht] at htax
      simp only [checkField, validate_tax] at htax
      split_ifs at htax with h1 h2
      exact ⟨not_lt.mp h1, not_lt.mp h2⟩
    · intro n hn
      rw [hn] at hname
      simp [checkField, validate_name] at hname
      exact hname
    · intro hinst
      rw [hinst] at hname hprice hcost
      refine ⟨?_, ?_, ?_⟩
      · cases hn : d.name with
        | none => rw [hn] at hname; simp [checkField] at hname
        | some v => simp [hn]
      · cases hn : d.price with
        | none => rw [hn] at hprice; simp [checkField] at hprice
        | some v => simp [hn]
      · cases hn : d.cost with
        | none => rw [hn] at hcost; simp [checkField] at hcost
        | some v => simp [hn]
  · intro x hx hle
    refine mem_validationErrors_of_mem_field inst d _ ?_
    simp [fieldErrors, checkField, hx, validate_price, hle]
  · intro x hx hle
    refine mem_validationErrors_of_mem_field inst d _ ?_
    simp [fieldErrors, checkField, hx, validate_cost, hle]
  · intro s hs hlt
    refine mem_validationErrors_of_mem_field inst d _ ?_
    simp [fieldErrors, checkField, hs, validate_stock, hlt]
  · intro t ht hor
    refine mem_validationErrors_of_mem_field inst d _ ?_
    have hvt : validate_tax t = [ErrScope.field "tax"] := by
      rcases hor with hlo | hhi
      · rw [validate_tax, if_pos hlo]
      · have hnlo : ¬ t < 1/100 := by
          refine not_lt.mpr (le_trans ?_ hhi.le)
          norm_num
        rw [validate_tax, if_neg hnlo, if_pos hhi]
    simp [fieldErrors, checkField, ht, hvt]
  · intro n hn hblank
    refine mem_validationErrors_of_mem_field inst d _ ?_
    simp [fieldErrors, checkField, hn, validate_name, hblank]

/-- Witness for C7: the fully valid payload is accepted (its price bound
instantiated at 100), and the payload with tax 2 is rejected with a
tax-scoped field error. -/
theorem c7_witness :
    (0 : ℚ) < 100 ∧ ErrScope.field "tax" ∈ validationErrors none badTaxPayload :=
  ⟨((c7_field_invariants none validPayload).1 (by decide)).1 100 rfl,
   (c7_field_invariants none badTaxPayload).2.2.2.2.1 2 rfl (Or.inr (by decide))⟩

/-- C5: any login attempt that fails authentication — a wrong password
for a stored email exactly as an unknown email — produces the one fixed
generic rejection message, which names no field, so the response does not
reveal which part of the credentials was wrong. -/
theorem c5_generic_login_rejection (store : List User) (email pw : String)
    (he : email ≠ "") (hp : pw ≠ "")
    (h : ∀ u ∈ store, u.email = email → u.password ≠ pw) :
    UserLoginSerializer.validate store email pw =
      LoginOutcome.rejected "Unable to log in with provided credentials." := by
  have hauth : authenticate store email pw = none := by
    unfold authenticate
    cases hf : store.find? (fun u => u.email = email) with
    | none => rfl
    | some u =>
      have hmem := List.mem_of_find?_eq_some hf
      have hemail : u.email = email := by
        have := List.find?_some hf
        simpa using this
      have hne := h u hmem hemail
      dsimp only
      rw [if_neg]
      intro hcp
      have : u.password = pw := by
        have := hcp.1
        simpa [check_password] using this
      exact hne this
  rw [UserLoginSerializer.validate, if_pos ⟨he, hp⟩, hauth]

/-- Witness for C5: a wrong password for the stored identity yields the
generic rejection. -/
theorem c5_witness :
    UserLoginSerializer.validate storeU "a@x.com" "wrong" =
      LoginOutcome.rejected "Unable to log in with provided credentials." :=
  c5_generic_login_rejection storeU "a@x.com" "wrong" (by decide) (by decide)
    (by decide)

/-- C8: change-password answers 400 and leaves the stored identities
untouched when old-password verification fails or the two new-password
fields differ; when both checks pass it answers 200, the requesting
identity's stored password is replaced by the new one, and every other
identity is untouched. -/
theorem c8_change_password (store : List User) (u : User) (old n1 n2 : String) :
    (check_password u.password old = false →
       ChangePasswordView.post store u old n1 n2 = (store, 400))
    ∧ (n1 ≠ n2 → ChangePasswordView.post store u old n1 n2 = (store, 400))
    ∧ (check_password u.password old = true → n1 = n2 →
       (ChangePasswordView.post store u old n1 n2).2 = 200
       ∧ (∀ v ∈ (ChangePasswordView.post store u old n1 n2).1,
            v.id = u.id → v.password = n1)
       ∧ (∀ v ∈ (ChangePasswordView.post store u old n1 n2).1,
            v.id ≠ u.id → v ∈ store)) := by
  refine ⟨?_, ?_, ?_⟩
  · intro hcp
    have herr : change_password_errors u old n1 n2 ≠ [] := by
      simp [change_password_errors, hcp]
    simp [ChangePasswordView.post, herr]
  · intro hne
    by_cases hcp : check_password u.password old = true
    · have herr : change_password_errors u old n1 n2 ≠ [] := by
        simp [change_password_errors, hcp, hne]
      simp [ChangePasswordView.post, herr]
    · have herr : change_password_errors u old n1 n2 ≠ [] := by
        simp [change_password_errors, hcp]
      simp [ChangePasswordView.post, herr]
  · intro hcp heq
    have herr : change_password_errors u old n1 n2 = [] := by
      simp [change_password_errors, hcp, heq]
    refine ⟨by simp [ChangePasswordView.post, herr], ?_, ?_⟩
    · intro v hv hid
      simp [ChangePasswordView.post, herr] at hv
      obtain ⟨w, hw, hvw⟩ := hv
      by_cases hwid : w.id = u.id
      · rw [if_pos hwid] at hvw
        rw [← hvw]
      · rw [if_neg hwid] at hvw
        rw [← hvw] at hid
        exact absurd hid hwid
    · intro v hv hid
      simp [ChangePasswordView.post, herr] at hv
      obtain ⟨w, hw, hvw⟩ := hv
      by_cases hwid : w.id = u.id
      · rw [if_pos hwid] at hvw
        rw [← hvw] at hid
        exact absurd hwid hid
      · rw [if_neg hwid] at hvw
        rw [← hvw]
        exact hw

/-- Witness for C8: the stored identity changes its password with the
correct old password and matching new fields, getting status 200. -/
theorem c8_witness :
    (ChangePasswordView.post storeU userA "pw" "new" "new").2 = 200 :=
  ((c8_change_password storeU userA "pw" "new" "new").2.2 (by decide) rfl).1

/-- C4: registering with mismatched password fields is rejected (status
400), every reported error is field-scoped, no identity is created and no
tokens are issued; registering with matching fields and a fresh email
creates exactly one new identity and answers 201 with a token pair. -/
theorem c4_registration (store : List User) (p : RegPayload) :
    (p.password ≠ p.password2 →
       (UserRegistrationView.create store p).status = 400
       ∧ (UserRegistrationView.create store p).newStore = store
       ∧ (UserRegistrationView.create store p).errors ≠ []
       ∧ (∀ e ∈ (UserRegistrationView.create store p).errors,
            ∃ f, e = ErrScope.field f)
       ∧ (UserRegistrationView.create store p).tokens = none)
    ∧ (p.password = p.password2 →
       (∀ u ∈ store, u.email ≠ normalize_email p.email) →
       (UserRegistrationView.create store p).status = 201
       ∧ (∃ newU : User,
            (UserRegistrationView.create store p).newStore = store ++ [newU])
       ∧ (UserRegistrationView.create store p).tokens.isSome = true) := by
  constructor
  · intro hne
    by_cases hdup : store.any (fun u => u.email = normalize_email p.email) = true
    · have herr : registration_errors store p = [ErrScope.field "email"] := by
        simp [registration_errors, hdup]
      have hc : UserRegistrationView.create store p =
          { newStore := store, status := 400, tokens := none,
            errors := [ErrScope.field "email"] } := by
        simp [UserRegistrationView.create, herr]
      rw [hc]
      refine ⟨rfl, rfl, by simp, ?_, rfl⟩
      intro e he
      simp at he
      exact ⟨"email", he⟩
    · have herr : registration_errors store p = [ErrScope.field "password"] := by
        simp [registration_errors, hdup, hne]
      have hc : UserRegistrationView.create store p =
          { newStore := store, status := 400, tokens := none,
            errors := [ErrScope.field "password"] } := by
        simp [UserRegistrationView.create, herr]
      rw [hc]
      refine ⟨rfl, rfl, by simp, ?_, rfl⟩
      intro e he
      simp at he
      exact ⟨"password", he⟩
  · intro heq hfresh
    have hdup : store.any (fun u => u.email = normalize_email p.email) = false := by
      rw [Bool.eq_false_iff]
      intro hany
      simp only [List.any_eq_true, decide_eq_true_eq] at hany
      obtain ⟨u, hu, he⟩ := hany
      exact hfresh u hu he
    have herr : registration_errors store p = [] := by
      simp [registration_errors, hdup, heq]
    refine ⟨?_, ?_, ?_⟩
    · simp [UserRegistrationView.create, herr]
    · exact ⟨(create_user store p).2, by simp [UserRegistrationView.create, herr, create_user]⟩
    · simp [UserRegistrationView.create, herr]

/-- Witness for C4: with the empty identity store, the mismatched payload
is rejected without creating an identity, and the matching payload
creates one identity with a 201 status. -/
theorem c4_witness :
    (UserRegistrationView.create [] regBad).newStore = []
    ∧ (UserRegistrationView.create [] regOk).status = 201 :=
  ⟨((c4_registration [] regBad).1 (by decide)).2.1,
   ((c4_registration [] regOk).2 rfl (by decide)).1⟩

/-- Counterexample to C1 as stated: an authenticated non-owner update of
a Product answers not-found, not forbidden (the stored record is still
not mutated).  The ProductViewSet never wires its IsAuthorOrReadOnly
class in, and its owner-scoped queryset hides foreign rows. -/
theorem c1_counterexample :
    (productUpdate stC1 (some 2) 1 { name := some "x" }).2 = Outcome.notFound
    ∧ (productUpdate stC1 (some 2) 1 { name := some "x" }).1 = stC1
    ∧ Outcome.notFound ≠ Outcome.forbidden := by decide

/-- C1 (amended): a write by an authenticated non-owner never mutates
storage, but the rejection differs by resource: Post update/partial-
update/delete answer forbidden (IsAuthorOrReadOnly is wired in), while
the same Product operations answer not-found, because ProductViewSet
checks only IsAuthenticatedOrReadOnly and resolves objects inside the
owner-scoped queryset. -/
theorem c1_nonowner_write (st : Store) (u pid : Nat) (pd : PostPayload)
    (rd : ProductPayload) :
    ((∃ q ∈ st.posts, q.id = pid) →
       (∀ q ∈ st.posts, q.id = pid → q.author ≠ u) →
       postUpdate st (some u) pid pd = (st, Outcome.forbidden)
       ∧ postDestroy st (some u) pid = (st, Outcome.forbidden))
    ∧ ((∀ q ∈ st.products, q.id = pid → q.created_by ≠ u) →
       productUpdate st (some u) pid rd = (st, Outcome.notFound)
       ∧ productDestroy st (some u) pid = (st, Outcome.notFound)) := by
  constructor
  · rintro ⟨q0, hq0, hq0id⟩ hall
    have hfind : ∃ q', st.posts.find? (fun q => q.id = pid) = some q' := by
      cases hf : st.posts.find? (fun q => q.id = pid) with
      | none =>
        rw [List.find?_eq_none] at hf
        exact absurd hq0id (by simpa using hf q0 hq0)
      | some q' => exact ⟨q', rfl⟩
    obtain ⟨q', hf⟩ := hfind
    have hid : q'.id = pid := by simpa using List.find?_some hf
    have hmem := List.mem_of_find?_eq_some hf
    have hne : q'.author ≠ u := hall q' hmem hid
    constructor
    · simp [postUpdate, hf, hne]
    · simp [postDestroy, hf, hne]
  · intro hall
    have hf : (product_get_queryset st (some u) none).find?
        (fun p => p.id = pid) = none := by
      rw [List.find?_eq_none]
      intro x hx
      have hx' : x ∈ st.products ∧ x.created_by = u := by
        simpa [product_get_queryset, List.mem_filter] using hx
      intro hxp
      exact hall x hx'.1 (by simpa using hxp) hx'.2
    constructor
    · simp [productUpdate, hf]
    · simp [productDestroy, hf]

/-- Witness for C1 (amended): identity 2 updating post 1 (authored by
identity 1) is forbidden; identity 2 deleting product 1 (owned by
identity 1) gets not-found; storage is unchanged in both cases. -/
theorem c1_witness :
    postUpdate stC1 (some 2) 1 { title := some "x" } = (stC1, Outcome.forbidden)
    ∧ productDestroy stC1 (some 2) 1 = (stC1, Outcome.notFound) :=
  ⟨((c1_nonowner_write stC1 2 1 { title := some "x" } { }).1
      ⟨postC1, by decide, rfl⟩ (by decide)).1,
   ((c1_nonowner_write stC1 2 1 { title := some "x" } { }).2 (by decide)).2⟩

/-- Counterexample to C2 as stated: the Post list action runs on the
unscoped queryset, so identity 2 receives a post owned by identity 1,
and an unauthenticated Post list request is not empty either. -/
theorem c2_counterexample :
    postList stC1 (some 2) = [postC1]
    ∧ postC1.author ≠ 2
    ∧ postList stC1 none ≠ [] := by decide

/-- C2 (amended): the standard Product list is owner-scoped (and empty,
not an error, for an unauthenticated requester), and my_posts is
owner-scoped; but the Post list (and published) and the Product low_cost
query run on the unscoped base queryset, so they can return records of
other identities. -/
theorem c2_scoping (st : Store) (u : Nat) (search : Option String) :
    (∀ p ∈ productList st (some u) search, p.created_by = u)
    ∧ productList st none search = []
    ∧ (∀ q ∈ myPosts st u, q.author = u) := by
  refine ⟨?_, rfl, ?_⟩
  · intro p hp
    cases search with
    | none =>
      simp only [productList, product_get_queryset, List.mem_filter,
        decide_eq_true_eq] at hp
      exact hp.2
    | some s =>
      by_cases hs : s = ""
      · simp only [productList, product_get_queryset, hs, if_pos,
          List.mem_filter, decide_eq_true_eq] at hp
        exact hp.2
      · simp only [productList, product_get_queryset, if_neg hs,
          List.mem_filter, decide_eq_true_eq] at hp
        exact hp.1.2
  · intro q hq
    simp only [myPosts, List.mem_filter, decide_eq_true_eq] at hq
    exact hq.2

/-- Witness for C2 (amended): identity 1 sees its own product in the
scoped list and its own post in my_posts. -/
theorem c2_witness :
    prodC1.created_by = 1 ∧ postC1.author = 1 :=
  ⟨(c2_scoping stC1 1 none).1 prodC1 (by decide),
   (c2_scoping stC1 1 none).2.2 postC1 (by decide)⟩

/-- Counterexample to C6 as stated: the low_cost list request returns
every matching product in one response — eleven records, above the
default page size of ten — so not every list request is paginated. -/
theorem c6_counterexample :
    (productLowCost stC6 (some 1) 100).length = 11
    ∧ ProductPagination.page_size < (productLowCost stC6 (some 1) 100).length := by
  decide

/-- C6 (amended): the standard list requests are paginated with default
page size 10, a client-supplied pagesize is honoured up to the cap of
100 (larger values are clamped to 100); the custom query endpoints such
as low_cost return all matching records unpaginated. -/
theorem c6_pagination (st : Store) (r : Option Nat) (search : Option String)
    (q : Option Nat) (n page : Nat) (t : ℚ) :
    get_page_size none = 10
    ∧ (0 < n → n ≤ 100 → get_page_size (some n) = n)
    ∧ (100 < n → get_page_size (some n) = 100)
    ∧ (productListPage st r search q page).length ≤ get_page_size q
    ∧ (∀ p ∈ st.products, p.cost < t → p ∈ productLowCost st r t) := by
  refine ⟨rfl, ?_, ?_, ?_, ?_⟩
  · intro h1 h2
    simp only [get_page_size]
    rw [if_pos h1]
    exact min_eq_left (by simpa [ProductPagination.max_page_size] using h2)
  · intro h
    simp only [get_page_size]
    rw [if_pos (lt_trans (by norm_num) h)]
    exact min_eq_right
      (le_of_lt (by simpa [ProductPagination.max_page_size] using h))
  · simp only [productListPage, paginate]
    rw [List.length_take]
    exact min_le_left _ _
  · intro p hp hlt
    simp only [productLowCost, List.mem_filter, decide_eq_true_eq]
    exact ⟨hp, hlt⟩

/-- Witness for C6 (amended): pagesize 7 is honoured, pagesize 500 is
clamped to 100, and a cheap product is in the unpaginated low_cost
result. -/
theorem c6_witness :
    get_page_size (some 7) = 7 ∧ get_page_size (some 500) = 100
    ∧ prodN 0 ∈ productLowCost stC6 (some 1) 100 :=
  ⟨(c6_pagination stC6 (some 1) none none 7 1 100).2.1 (by decide) (by decide),
   (c6_pagination stC6 (some 1) none none 500 1 100).2.2.1 (by decide),
   (c6_pagination stC6 (some 1) none none 7 1 100).2.2.2.2 (prodN 0)
     (by decide) (by decide)⟩

end Backend
